import Mathlib

/-!
Shallow embedding of the Clauntty embedded Mosh client wrapper
(`ThirdParty/mosh-support/src/clauntty_mosh.cc`).

The wrapper drives an external state-synchronization transport
(`Network::Transport`) from a single worker thread: caller threads enqueue
keystrokes and resizes, the driver loop drains them, emits terminal diff
frames, reports the first successful connection, and translates
transport/crypto failures into a discrete event stream.

Modelling conventions:
  * The external transport is modelled by the state the wrapper observes and
    mutates through its interface (`NetworkState`): the sequence of protocol
    units pushed into the outgoing state, the received-remote-state counter,
    the latest remote framebuffer, the pending send-error string, the
    suggested wait time, and the shutdown flag.
  * Terminal framebuffers are opaque snapshot identifiers (`Nat`); the
    external diff renderer `Terminal::Display::new_frame` is a parameter
    `nf : Bool → Nat → Nat → List Nat` (incremental flag, local snapshot,
    remote snapshot → diff bytes).
  * Machine integers (`int`) are `Int`; bytes (`uint8_t`) are `Nat` values.
  * C `NULL` pointers are `Option.none`; `char*` strings are `Option String`.
  * Exceptions thrown by external calls inside the loop body are injected by
    an oracle (`IterExternal`), which also supplies the external effects of
    `recv` and `tick`.  An exception is modelled as interrupting the body at
    the boundary of the step it occurs in.
  * The worker thread is counted, not executed: `start` spawns (increments
    the live-thread count), `stop` joins (the loop exits and the count drops
    to zero).  The loop itself is run separately, driven by the oracle list;
    the oracle list ending models the `running` flag being observed false.
-/

/-- `PendingEvent` (clauntty_mosh.cc lines 38-61): tagged queue entry, either
a single input byte (`makeByte`) or a resize request (`makeResize`). -/
inductive PendingEvent where
  | byte (b : Nat)
  | resize (cols rows : Int)
deriving DecidableEq, Repr

/-- A protocol unit pushed into the transport's outgoing state:
`Parser::UserByte` or `Parser::Resize`. -/
inductive ProtoUnit where
  | userByte (b : Nat)
  | resize (cols rows : Int)
deriving DecidableEq, Repr

/-- The transport (`Network::Transport<UserStream, Complete>`) as observed and
mutated through the wrapper's calls: `get_current_state().push_back`,
`get_remote_state_num`, `get_latest_remote_state().state.get_fb`,
`get_send_error`, `wait_time`, `shutdown_in_progress`. -/
structure NetworkState where
  current_sent : List ProtoUnit
  remote_state_num : Nat
  latest_remote_fb : Nat
  send_error : String
  wait_time : Int
  shutdown_in_progress : Bool
deriving DecidableEq, Repr

/-- `struct clauntty_mosh_client` (lines 77-104).  `output_cb_present` models
the nullity of the stored output callback pointer; `worker_threads` counts
live worker threads (the `std::thread worker` member, 0 or 1). -/
structure Client where
  ip : String
  port : String
  key : String
  cols : Int
  rows : Int
  output_cb_present : Bool
  network : Option NetworkState
  local_framebuffer : Nat
  output_enabled : Bool
  repaint_requested : Bool
  connected_reported : Bool
  running : Bool
  worker_threads : Nat
  pending : List PendingEvent
deriving DecidableEq, Repr

/-- Events delivered through `event_cb` (`clauntty_mosh_event_t` plus the
optional message pointer). -/
inductive Event where
  | connected (msg : Option String)
  | networkError (msg : Option String)
  | cryptoError (msg : Option String)
  | exit (msg : Option String)
deriving DecidableEq, Repr

/-- Constructor body `clauntty_mosh_client::clauntty_mosh_client`
(lines 106-136): stores the configuration, builds the transport from a blank
input stream and a `(cols, rows)`-sized remote state, and immediately pushes
an initial `Parser::Resize(cols, rows)` into the outgoing state.  The blank
initial framebuffers are snapshot id 0.  Null string pointers are stored as
empty strings (`s_ip ? s_ip : ""`). -/
def mk_client (s_ip s_port s_key : Option String) (s_cols s_rows : Int)
    (s_out_cb : Bool) : Client :=
  { ip := s_ip.getD ""
    port := s_port.getD ""
    key := s_key.getD ""
    cols := s_cols
    rows := s_rows
    output_cb_present := s_out_cb
    network :=
      some { current_sent := [ProtoUnit.resize s_cols s_rows],
             remote_state_num := 0, latest_remote_fb := 0, send_error := "",
             wait_time := 0, shutdown_in_progress := false }
    local_framebuffer := 0
    output_enabled := true
    repaint_requested := true
    connected_reported := false
    running := false
    worker_threads := 0
    pending := [] }

/-- The unit a drained `PendingEvent` becomes in `drain_pending`
(lines 149-157): a byte becomes `Parser::UserByte`, a resize becomes
`Parser::Resize`. -/
def eventToUnit : PendingEvent → ProtoUnit
  | PendingEvent.byte b => ProtoUnit.userByte b
  | PendingEvent.resize c r => ProtoUnit.resize c r

/-- One drained event applied to the client (loop body of lines 149-157):
push the unit, and for a resize also request a full repaint. -/
def drain_one (c : Client) (e : PendingEvent) : Client :=
  match c.network with
  | none => c
  | some nw =>
    match e with
    | PendingEvent.byte b =>
      let nw2 := { nw with current_sent := nw.current_sent ++ [ProtoUnit.userByte b] }
      { c with network := some nw2 }
    | PendingEvent.resize cl r =>
      let nw2 := { nw with current_sent := nw.current_sent ++ [ProtoUnit.resize cl r] }
      { c with network := some nw2, repaint_requested := true }

/-- `clauntty_mosh_client::drain_pending` (lines 138-158): atomically swap the
queue out under the lock, then — unless the transport is absent or shutting
down — forward each event in order. -/
def drain_pending (c : Client) : Client :=
  let locl := c.pending
  let c1 := { c with pending := [] }
  match c1.network with
  | none => c1
  | some nw =>
    if nw.shutdown_in_progress then c1
    else locl.foldl drain_one c1

/-- The frame request `emit_frame` hands to the external diff renderer
(lines 168-170): `(incremental, local snapshot, remote snapshot)` where
`incremental = !repaint_requested`, or `none` when no frame is computed
(absent transport, or output disabled). -/
def frame_request (c : Client) : Option (Bool × Nat × Nat) :=
  match c.network with
  | none => none
  | some nw =>
    if c.output_enabled then
      some (!c.repaint_requested, c.local_framebuffer, nw.latest_remote_fb)
    else none

/-- `clauntty_mosh_client::emit_frame` (lines 160-176): when output is
enabled, render a diff of the cached local snapshot against the latest remote
snapshot, deliver it if non-empty and a callback is present, clear the
repaint flag, and replace the local snapshot with the remote one.  Returns
the updated client and the byte chunks delivered to `output_cb`. -/
def emit_frame (nf : Bool → Nat → Nat → List Nat) (c : Client) :
    Client × List (List Nat) :=
  match c.network with
  | none => (c, [])
  | some nw =>
    if !c.output_enabled then (c, [])
    else
      let incremental := !c.repaint_requested
      let diff := nf incremental c.local_framebuffer nw.latest_remote_fb
      let outs := if diff ≠ [] ∧ c.output_cb_present then [diff] else []
      ({ c with repaint_requested := false,
                local_framebuffer := nw.latest_remote_fb }, outs)

/-- `clauntty_mosh_client::still_connecting` (lines 178-180). -/
def still_connecting (c : Client) : Bool :=
  match c.network with
  | none => false
  | some nw => nw.remote_state_num == 0

/-- `clauntty_mosh_client::maybe_report_connected` (lines 182-190): on the
first observation of a nonzero received-state counter, latch
`connected_reported` and emit `CONNECTED` with a null message. -/
def maybe_report_connected (c : Client) : Client × List Event :=
  if c.connected_reported then (c, [])
  else
    match c.network with
    | none => (c, [])
    | some nw =>
      if nw.remote_state_num ≠ 0 then
        ({ c with connected_reported := true }, [Event.connected none])
      else (c, [])

/-- Blocking-timeout computation in the loop (lines 204-210): start from
`network->wait_time()` (250 when the transport is absent), clamp to at most
250 while still connecting, and replace a negative result by 250. -/
def compute_wait_time (c : Client) : Int :=
  let wt : Int := match c.network with
    | none => 250
    | some nw => nw.wait_time
  let wt := if still_connecting c then min wt 250 else wt
  if wt < 0 then 250 else wt

/-- Spec-side formula for the blocking timeout, written from §4.2 step 5 of
the specification: "start from the transport's suggested wait time; while
still in the pre-connection phase (transport has received zero remote
states), clamp to at most 250 ms; if the result is negative, default to
250 ms."  Used only to compare against `compute_wait_time`. -/
def spec_blocking_timeout (suggested : Int) (remoteStates : Nat) : Int :=
  let clamped := if remoteStates = 0 then min suggested 250 else suggested
  if clamped < 0 then 250 else clamped

/-- Outcome of `clauntty_mosh_client_create`: either a null return with the
message written into `errbuf`, or a constructed session. -/
inductive CreateOutcome where
  | err (msg : String)
  | session (c : Client)
deriving DecidableEq, Repr

/-- Whether a `CreateOutcome` is the null-return case. -/
def CreateOutcome.isErr : CreateOutcome → Bool
  | CreateOutcome.err _ => true
  | CreateOutcome.session _ => false

/-- The validation guards of `clauntty_mosh_client_create` (lines 297-309),
run before the constructor is reached: null `ip`/`port`/`key` pointers,
non-positive `cols`/`rows`, null output callback.  Returns the error message
written to `errbuf`, or `none` when control reaches
`new clauntty_mosh_client(...)`. -/
def create_validation (ip port key : Option String) (cols rows : Int)
    (output_cb : Bool) : Option String :=
  if ip = none ∨ port = none ∨ key = none then some "Missing ip/port/key"
  else if cols ≤ 0 ∨ rows ≤ 0 then some "Invalid cols/rows"
  else if !output_cb then some "Missing output callback"
  else none

/-- `clauntty_mosh_client_create` (lines 285-315).  `ctor_throws` models the
external transport/crypto constructor invoked inside
`clauntty_mosh_client`'s member-initializer body: `some msg` means that
constructor throws `std::exception` with message `msg` (caught at line 311,
which writes `e.what()` to `errbuf` and returns null); `none` means it
succeeds. -/
def clauntty_mosh_client_create (ctor_throws : Option String)
    (ip port key : Option String) (cols rows : Int) (output_cb : Bool) :
    CreateOutcome :=
  match create_validation ip port key cols rows output_cb with
  | some msg => CreateOutcome.err msg
  | none =>
    match ctor_throws with
    | some msg => CreateOutcome.err msg
    | none => CreateOutcome.session (mk_client ip port key cols rows output_cb)

/-- `clauntty_mosh_client_start` (lines 317-325): `running.exchange(true)`
makes a second call a no-op; otherwise the worker thread is spawned.
(The null-handle guard is elided: the model value is always a live client.) -/
def clauntty_mosh_client_start (c : Client) : Client :=
  if c.running then c
  else { c with running := true, worker_threads := c.worker_threads + 1 }

/-- `clauntty_mosh_client_stop` (lines 327-338): `running.exchange(false)`;
if it was running, join the worker thread (after the join no worker thread
is left alive). -/
def clauntty_mosh_client_stop (c : Client) : Client :=
  if !c.running then c
  else { c with running := false, worker_threads := 0 }

/-- `clauntty_mosh_client_set_output_enabled` (lines 348-358): store the
flag; on enabling, force a full repaint on the next frame. -/
def clauntty_mosh_client_set_output_enabled (c : Client) (enabled : Bool) :
    Client :=
  let c1 := { c with output_enabled := enabled }
  if enabled then { c1 with repaint_requested := true } else c1

/-- `clauntty_mosh_client_send_input` (lines 360-368): drop the call when the
byte pointer is null (`bytes = none`) or the length is zero; otherwise append
one queue entry per byte, in order, under the lock. -/
def clauntty_mosh_client_send_input (c : Client) (bytes : Option (List Nat)) :
    Client :=
  match bytes with
  | none => c
  | some bs =>
    if bs.length = 0 then c
    else { c with pending := c.pending ++ bs.map PendingEvent.byte }

/-- `clauntty_mosh_client_send_resize` (lines 370-376): drop the call when
`cols` or `rows` is non-positive; otherwise append one resize entry. -/
def clauntty_mosh_client_send_resize (c : Client) (cols rows : Int) : Client :=
  if cols ≤ 0 ∨ rows ≤ 0 then c
  else { c with pending := c.pending ++ [PendingEvent.resize cols rows] }

/-- A producer-side API call, for stating queue-order properties. -/
inductive ApiCall where
  | input (bytes : Option (List Nat))
  | resize (cols rows : Int)
deriving DecidableEq, Repr

/-- Apply one producer-side API call. -/
def applyCall (c : Client) : ApiCall → Client
  | ApiCall.input bs => clauntty_mosh_client_send_input c bs
  | ApiCall.resize cl r => clauntty_mosh_client_send_resize c cl r

/-- Apply a sequence of producer-side API calls in order. -/
def applyCalls (c : Client) (calls : List ApiCall) : Client :=
  calls.foldl applyCall c

/-- The protocol units a valid API call contributes after a drain: one
user-input unit per byte, one dimension-change unit per resize; invalid
calls (null pointer, zero length, non-positive dimensions) contribute
nothing. -/
def callUnits : ApiCall → List ProtoUnit
  | ApiCall.input none => []
  | ApiCall.input (some bs) =>
    if bs.length = 0 then [] else bs.map ProtoUnit.userByte
  | ApiCall.resize cl r =>
    if cl ≤ 0 ∨ r ≤ 0 then [] else [ProtoUnit.resize cl r]

/-- The queue entries a valid API call appends. -/
def callEvents : ApiCall → List PendingEvent
  | ApiCall.input none => []
  | ApiCall.input (some bs) =>
    if bs.length = 0 then [] else bs.map PendingEvent.byte
  | ApiCall.resize cl r =>
    if cl ≤ 0 ∨ r ≤ 0 then [] else [PendingEvent.resize cl r]

/-- An exception escaping an external call inside the loop body's `try`
block: `Network::NetworkException`, `Crypto::CryptoException` (with its
`fatal` flag), or any other `std::exception`. -/
inductive IterExc where
  | net (msg : String)
  | crypto (msg : String) (fatal : Bool)
  | other (msg : String)
deriving DecidableEq, Repr

/-- The step of the loop body an injected exception interrupts. -/
inductive ExcPoint where
  | atDrain
  | atEmit
  | atWait
  | atRecv
  | atTick
deriving DecidableEq, Repr

/-- Oracle input for one loop iteration: an optional exception (and the step
it interrupts), whether a transport descriptor became readable, the remote
state the transport holds after `recv` (received-state counter and latest
framebuffer), and the send-error string the transport holds after `tick`
(`""` = unchanged). -/
structure IterExternal where
  exc : Option (ExcPoint × IterExc)
  recv_ready : Bool
  recv_update : Nat × Nat
  tick_send_error : String
deriving DecidableEq, Repr

/-- The exception, if any, this iteration's oracle injects at step `p`. -/
def excPoint (ext : IterExternal) (p : ExcPoint) : Option IterExc :=
  match ext.exc with
  | some (q, e) => if q = p then some e else none
  | none => none

/-- Result of one loop iteration: the client state, the diff chunks delivered
to `output_cb`, the events delivered to `event_cb`, and whether the iteration
ended in `break`. -/
structure IterResult where
  client : Client
  outputs : List (List Nat)
  events : List Event
  brk : Bool
deriving DecidableEq, Repr

/-- The `catch` clauses of the loop (lines 265-278): a network exception
emits `NETWORK_ERROR` and continues (after a 200 ms sleep); a crypto
exception emits `CRYPTO_ERROR` and breaks only when fatal; any other
exception emits `EXIT` with the message and breaks. -/
def handle_exc (e : IterExc) : List Event × Bool :=
  match e with
  | IterExc.net msg => ([Event.networkError (some msg)], false)
  | IterExc.crypto msg fatal => ([Event.cryptoError (some msg)], fatal)
  | IterExc.other msg => ([Event.exit (some msg)], true)

/-- Iteration result when an exception interrupts the body after state `c`,
outputs `outs` and events `evs` have already been produced. -/
def excResult (c : Client) (outs : List (List Nat)) (evs : List Event)
    (e : IterExc) : IterResult :=
  let (evs2, b) := handle_exc e
  ⟨c, outs, evs ++ evs2, b⟩

/-- Effect of `network->recv()` (lines 253-255), executed when a descriptor
was readable: the transport's received-state counter and latest remote
framebuffer take the values the oracle supplies. -/
def apply_recv (c : Client) (ext : IterExternal) : Client :=
  if ext.recv_ready then
    match c.network with
    | none => c
    | some nw =>
      let nw2 := { nw with remote_state_num := ext.recv_update.1,
                           latest_remote_fb := ext.recv_update.2 }
      { c with network := some nw2 }
  else c

/-- Effect of `network->tick()` (line 258) on the observable send-error
string: the transport may set it (`tick_send_error ≠ ""`), else it is
unchanged. -/
def apply_tick (c : Client) (ext : IterExternal) : Client :=
  match c.network with
  | none => c
  | some nw =>
    if ext.tick_send_error ≠ "" then
      let nw2 := { nw with send_error := ext.tick_send_error }
      { c with network := some nw2 }
    else c

/-- The send-error check after `tick` (lines 259-263): a non-empty pending
send error is emitted as `NETWORK_ERROR` and cleared. -/
def send_error_check (c : Client) : Client × List Event :=
  match c.network with
  | none => (c, [])
  | some nw =>
    if nw.send_error ≠ "" then
      let nw2 := { nw with send_error := "" }
      ({ c with network := some nw2 }, [Event.networkError (some nw.send_error)])
    else (c, [])

/-- One iteration of the driver loop's `try` body (lines 197-264) together
with its `catch` clauses: drain, emit a frame, check for first connection,
compute the blocking timeout and wait, receive if ready, tick and surface a
pending send error.  An exception injected at a step interrupts the body at
that step's boundary and is classified by `handle_exc`. -/
def loop_body (nf : Bool → Nat → Nat → List Nat) (c : Client)
    (ext : IterExternal) : IterResult :=
  match excPoint ext ExcPoint.atDrain with
  | some e => excResult c [] [] e
  | none =>
  let c1 := drain_pending c
  match excPoint ext ExcPoint.atEmit with
  | some e => excResult c1 [] [] e
  | none =>
  let (c2, outs) := emit_frame nf c1
  let (c3, evsConn) := maybe_report_connected c2
  match excPoint ext ExcPoint.atWait with
  | some e => excResult c3 outs evsConn e
  | none =>
  let _wait_ms := compute_wait_time c3
  match excPoint ext ExcPoint.atRecv with
  | some e => excResult c3 outs evsConn e
  | none =>
  let c4 := apply_recv c3 ext
  match excPoint ext ExcPoint.atTick with
  | some e => excResult c4 outs evsConn e
  | none =>
  let c5 := apply_tick c4 ext
  let (c6, evsTick) := send_error_check c5
  ⟨c6, outs, evsConn ++ evsTick, false⟩

/-- The driver loop `clauntty_mosh_client::loop` (lines 192-282): iterate the
body while `running` is observed true, breaking on a fatal exception; on loop
exit — for any reason — emit the final `EXIT` event with a null message
(line 281).  The oracle list supplies one `IterExternal` per iteration the
`running` flag allows; the list ending models `stop()` having cleared the
flag (a clean stop).  Returns the final client state and the full event
stream of the run. -/
def loop_run (nf : Bool → Nat → Nat → List Nat) (c : Client) :
    List IterExternal → Client × List Event
  | [] => (c, [Event.exit none])
  | ext :: rest =>
    let r := loop_body nf c ext
    if r.brk then (r.client, r.events ++ [Event.exit none])
    else
      let (c2, evs2) := loop_run nf r.client rest
      (c2, r.events ++ evs2)

/-- Whether an event is an `EXIT` event. -/
def isExitEv : Event → Bool
  | Event.exit _ => true
  | _ => false

/-- Whether an event is a `CONNECTED` event. -/
def isConnectedEv : Event → Bool
  | Event.connected _ => true
  | _ => false

/-- Whether an event is a `NETWORK_ERROR` event. -/
def isNetErrEv : Event → Bool
  | Event.networkError _ => true
  | _ => false

/-- Number of `EXIT` events in a stream. -/
def countExit (evs : List Event) : Nat := (evs.filter isExitEv).length

/-- Number of `CONNECTED` events in a stream. -/
def countConnected (evs : List Event) : Nat := (evs.filter isConnectedEv).length

/-- Number of `NETWORK_ERROR` events in a stream. -/
def countNetErr (evs : List Event) : Nat := (evs.filter isNetErrEv).length

/-- A stream with no `EXIT` event. -/
def exitFree (evs : List Event) : Bool := evs.all (fun e => !isExitEv e)

/-- Whether this iteration's oracle injects an unclassified
(`std::exception`) failure. -/
def isOtherExc (ext : IterExternal) : Bool :=
  match ext.exc with
  | some (_, IterExc.other _) => true
  | _ => false

/-- A resize queue entry. -/
def isResizeEvent : PendingEvent → Bool
  | PendingEvent.resize _ _ => true
  | PendingEvent.byte _ => false

/-- A caller-facing lifecycle/producer operation, for stating invariants that
hold at any time over a Session's life. -/
inductive CtrlOp where
  | start
  | stop
  | setOut (enabled : Bool)
  | sendIn (bytes : Option (List Nat))
  | sendRz (cols rows : Int)
deriving DecidableEq, Repr

/-- Apply one caller-facing operation. -/
def applyCtrl (c : Client) : CtrlOp → Client
  | CtrlOp.start => clauntty_mosh_client_start c
  | CtrlOp.stop => clauntty_mosh_client_stop c
  | CtrlOp.setOut e => clauntty_mosh_client_set_output_enabled c e
  | CtrlOp.sendIn bs => clauntty_mosh_client_send_input c bs
  | CtrlOp.sendRz cl r => clauntty_mosh_client_send_resize c cl r

/-- Apply a sequence of caller-facing operations in order. -/
def applyCtrls (c : Client) (ops : List CtrlOp) : Client :=
  ops.foldl applyCtrl c

lemma drain_one_some (c : Client) (nw : NetworkState) (e : PendingEvent)
    (h : c.network = some nw) :
    drain_one c e =
      { c with
          network :=
            some { nw with
                     current_sent := nw.current_sent ++ [eventToUnit e] },
          repaint_requested := c.repaint_requested || isResizeEvent e } := by
  cases e with
  | byte b => simp [drain_one, h, eventToUnit, isResizeEvent]
  | resize cl r => simp [drain_one, h, eventToUnit, isResizeEvent]

lemma drain_foldl (evs : List PendingEvent) :
    ∀ (c : Client) (nw : NetworkState), c.network = some nw →
      evs.foldl drain_one c =
        { c with
            network :=
              some { nw with
                       current_sent := nw.current_sent ++ evs.map eventToUnit },
            repaint_requested :=
              c.repaint_requested || evs.any isResizeEvent } := by
  induction evs with
  | nil =>
    intro c nw h
    simp only [List.foldl_nil, List.map_nil, List.append_nil, List.any_nil,
      Bool.or_false]
    rw [← h]
  | cons e evs ih =>
    intro c nw h
    rw [List.foldl_cons, drain_one_some c nw e h]
    rw [ih _ { nw with current_sent := nw.current_sent ++ [eventToUnit e] } rfl]
    simp [List.append_assoc, Bool.or_assoc]

lemma drain_pending_eq (c : Client) :
    drain_pending c =
      match c.network with
      | none => { c with pending := [] }
      | some nw =>
        if nw.shutdown_in_progress then { c with pending := [] }
        else
          { c with
              pending := [],
              network :=
                some { nw with
                         current_sent :=
                           nw.current_sent ++ c.pending.map eventToUnit },
              repaint_requested :=
                c.repaint_requested || c.pending.any isResizeEvent } := by
  simp only [drain_pending]
  cases h : c.network with
  | none => simp [h]
  | some nw =>
    simp only [h]
    by_cases hsd : nw.shutdown_in_progress = true
    · simp [hsd]
    · have hsd2 : nw.shutdown_in_progress = false := by
        cases hq : nw.shutdown_in_progress
        · rfl
        · exact absurd hq hsd
      rw [drain_foldl c.pending { c with network := some nw, pending := [] } nw rfl]

/-- C3: for every loop iteration, the blocking timeout computed by the loop
(lines 204-210) equals the transport's suggested wait time, clamped to at
most 250 ms whenever the transport has received zero remote states, and set
to 250 ms whenever the value after clamping is negative. -/
theorem c3_blocking_timeout (c : Client) (nw : NetworkState)
    (h : c.network = some nw) :
    compute_wait_time c = spec_blocking_timeout nw.wait_time nw.remote_state_num := by
  unfold compute_wait_time spec_blocking_timeout still_connecting
  rw [h]
  by_cases h0 : nw.remote_state_num = 0
  · simp [h0]
  · simp [h0]

/-- Witness for `c3_blocking_timeout` at a freshly constructed client. -/
theorem c3_blocking_timeout_witness :
    compute_wait_time (mk_client (some "198.51.100.7") (some "60001")
      (some "sessionkey") 80 24 true) = spec_blocking_timeout 0 0 :=
  c3_blocking_timeout _ _ rfl

/-- C10: `sendResize` with non-positive `cols` or `rows`, and `sendInput`
with a null byte pointer or zero length, return without enqueuing anything:
the client (queue included) is left exactly unchanged. -/
theorem c10_invalid_sends_dropped (c : Client) (cols rows : Int)
    (bs : List Nat) (hcr : cols ≤ 0 ∨ rows ≤ 0) (hbs : bs.length = 0) :
    clauntty_mosh_client_send_resize c cols rows = c ∧
    clauntty_mosh_client_send_input c none = c ∧
    clauntty_mosh_client_send_input c (some bs) = c := by
  refine ⟨?_, ?_, ?_⟩
  · simp [clauntty_mosh_client_send_resize, hcr]
  · simp [clauntty_mosh_client_send_input]
  · simp [clauntty_mosh_client_send_input, hbs]

/-- Witness for `c10_invalid_sends_dropped` at a fresh client, `cols = 0`,
`rows = 24` and an empty byte list. -/
theorem c10_invalid_sends_dropped_witness :
    clauntty_mosh_client_send_resize (mk_client (some "198.51.100.7")
      (some "60001") (some "sessionkey") 80 24 true) 0 24 =
      mk_client (some "198.51.100.7") (some "60001") (some "sessionkey")
        80 24 true :=
  (c10_invalid_sends_dropped _ 0 24 [] (Or.inl (by decide)) rfl).1

/-- C2 counterexample: `create` called with empty (non-null) strings for
address, port and key passes every validation guard — `create_validation`
reports no error — so the "Missing ip/port/key" message is never written for
this input; with a non-throwing constructor the call even returns a session
rather than null.  The guard at line 298 tests pointer nullity
(`!ip || !port || !key`), not emptiness. -/
theorem c2_counterexample :
    create_validation (some "") (some "") (some "") 80 24 true = none ∧
    (clauntty_mosh_client_create none (some "") (some "") (some "")
      80 24 true).isErr = false := by
  constructor
  · rfl
  · rfl

/-- C2 as amended: `create` returns no session with the error message
"Missing ip/port/key" exactly when one of the address/port/key pointers is
null; empty strings are not detected by this guard (control proceeds to the
external transport constructor). -/
theorem c2_null_args_rejected (ct : Option String) (ip port key : Option String)
    (cols rows : Int) (ocb : Bool) (h : ip = none ∨ port = none ∨ key = none) :
    clauntty_mosh_client_create ct ip port key cols rows ocb =
      CreateOutcome.err "Missing ip/port/key" := by
  unfold clauntty_mosh_client_create create_validation
  rw [if_pos h]

/-- Witness for `c2_null_args_rejected` with all three pointers null. -/
theorem c2_null_args_rejected_witness :
    clauntty_mosh_client_create none none none none 80 24 true =
      CreateOutcome.err "Missing ip/port/key" :=
  c2_null_args_rejected none none none none 80 24 true (Or.inl rfl)

/-- A trivial diff renderer (always the empty diff), used to instantiate
witnesses. -/
def nf0 : Bool → Nat → Nat → List Nat := fun _ _ _ => []

/-- A diff renderer that always produces one byte, used to instantiate
witnesses that need a non-empty diff. -/
def nf1 : Bool → Nat → Nat → List Nat := fun _ _ _ => [27]

/-- A freshly constructed sample client, used to instantiate witnesses. -/
def sample_client : Client :=
  mk_client (some "198.51.100.7") (some "60001") (some "sessionkey") 80 24 true

/-- C8: `create` with non-positive `cols`/`rows` or a null output callback
returns no session and writes the corresponding non-empty message (the
callback message mentions the callback); whatever the construction outcome,
`create` spawns no worker thread and delivers no event: a failed call yields
no session at all, and even a successful one returns a client with no worker
thread and `running` false (events only ever arise from the driver loop). -/
theorem c8_create_failure_paths :
    (∀ (ct : Option String) (ip port key : String) (cols rows : Int)
       (ocb : Bool), cols ≤ 0 ∨ rows ≤ 0 →
      clauntty_mosh_client_create ct (some ip) (some port) (some key)
        cols rows ocb = CreateOutcome.err "Invalid cols/rows") ∧
    ("Invalid cols/rows" ≠ "") ∧
    (∀ (ct : Option String) (ip port key : String) (cols rows : Int),
      0 < cols → 0 < rows →
      clauntty_mosh_client_create ct (some ip) (some port) (some key)
        cols rows false = CreateOutcome.err "Missing output callback") ∧
    (∃ pre post, "Missing output callback" = pre ++ "callback" ++ post) ∧
    (∀ (ct ip port key : Option String) (cols rows : Int) (ocb : Bool)
       (c2 : Client),
      clauntty_mosh_client_create ct ip port key cols rows ocb =
        CreateOutcome.session c2 →
      c2.worker_threads = 0 ∧ c2.running = false) := by
  refine ⟨?_, by decide, ?_, ⟨"Missing output ", "", rfl⟩, ?_⟩
  · intro ct ip port key cols rows ocb h
    unfold clauntty_mosh_client_create create_validation
    rw [if_neg (by simp), if_pos h]
  · intro ct ip port key cols rows hc hr
    unfold clauntty_mosh_client_create create_validation
    rw [if_neg (by simp), if_neg (by omega)]
    simp
  · intro ct ip port key cols rows ocb c2 h
    unfold clauntty_mosh_client_create at h
    cases hv : create_validation ip port key cols rows ocb with
    | some m => rw [hv] at h; exact absurd h (by simp)
    | none =>
      rw [hv] at h
      cases hct : ct with
      | some m => rw [hct] at h; exact absurd h (by simp)
      | none =>
        rw [hct] at h
        have h2 : c2 = mk_client ip port key cols rows ocb := by
          cases h; rfl
        subst h2
        exact ⟨rfl, rfl⟩

/-- Witness for `c8_create_failure_paths`: `cols = 0` and a null output
callback at otherwise valid arguments. -/
theorem c8_create_failure_paths_witness :
    clauntty_mosh_client_create none (some "198.51.100.7") (some "60001")
      (some "sessionkey") 0 24 true = CreateOutcome.err "Invalid cols/rows" ∧
    clauntty_mosh_client_create none (some "198.51.100.7") (some "60001")
      (some "sessionkey") 80 24 false =
      CreateOutcome.err "Missing output callback" ∧
    (mk_client (some "198.51.100.7") (some "60001") (some "sessionkey")
      80 24 true).worker_threads = 0 :=
  ⟨c8_create_failure_paths.1 none "198.51.100.7" "60001" "sessionkey" 0 24
      true (Or.inl (by decide)),
   c8_create_failure_paths.2.2.1 none "198.51.100.7" "60001" "sessionkey"
      80 24 (by decide) (by decide),
   (c8_create_failure_paths.2.2.2.2 none (some "198.51.100.7") (some "60001")
      (some "sessionkey") 80 24 true _ rfl).1⟩

lemma applyCtrl_thread_inv (c : Client) (op : CtrlOp)
    (h : c.worker_threads = if c.running then 1 else 0) :
    (applyCtrl c op).worker_threads =
      if (applyCtrl c op).running then 1 else 0 := by
  cases op with
  | start =>
    by_cases hr : c.running = true
    · simp [applyCtrl, clauntty_mosh_client_start, hr, h]
    · have hr2 : c.running = false := by
        cases hq : c.running
        · rfl
        · exact absurd hq hr
      simp [applyCtrl, clauntty_mosh_client_start, hr2, h]
  | stop =>
    by_cases hr : c.running = true
    · simp [applyCtrl, clauntty_mosh_client_stop, hr]
    · have hr2 : c.running = false := by
        cases hq : c.running
        · rfl
        · exact absurd hq hr
      simp [applyCtrl, clauntty_mosh_client_stop, hr2, h]
  | setOut e =>
    cases e <;> simp [applyCtrl, clauntty_mosh_client_set_output_enabled, h]
  | sendIn bs =>
    cases bs with
    | none => simpa [applyCtrl, clauntty_mosh_client_send_input] using h
    | some l =>
      by_cases hl : l.length = 0
      · simpa [applyCtrl, clauntty_mosh_client_send_input, hl] using h
      · simpa [applyCtrl, clauntty_mosh_client_send_input, hl] using h
  | sendRz cl r =>
    by_cases hcr : cl ≤ 0 ∨ r ≤ 0
    · simpa [applyCtrl, clauntty_mosh_client_send_resize, hcr] using h
    · simpa [applyCtrl, clauntty_mosh_client_send_resize, hcr] using h

lemma applyCtrls_thread_inv (ops : List CtrlOp) :
    ∀ c : Client, c.worker_threads = (if c.running then 1 else 0) →
      (applyCtrls c ops).worker_threads =
        if (applyCtrls c ops).running then 1 else 0 := by
  induction ops with
  | nil => intro c h; simpa [applyCtrls] using h
  | cons op ops ih =>
    intro c h
    have h2 := applyCtrl_thread_inv c op h
    simpa [applyCtrls, List.foldl_cons] using ih (applyCtrl c op) h2

/-- C7: at most one worker thread exists per Session at any time: over any
sequence of caller-facing operations on a freshly created client the live
worker-thread count never exceeds one; `start` on an already-running client
is a no-op, so two consecutive `start` calls yield exactly one thread. -/
theorem c7_at_most_one_worker (c : Client) (hr : c.running = true) :
    clauntty_mosh_client_start c = c ∧
    (∀ (ip port key : Option String) (cols rows : Int) (ocb : Bool)
       (ops : List CtrlOp),
      (applyCtrls (mk_client ip port key cols rows ocb) ops).worker_threads
        ≤ 1) ∧
    (∀ (ip port key : Option String) (cols rows : Int) (ocb : Bool),
      (clauntty_mosh_client_start (clauntty_mosh_client_start
        (mk_client ip port key cols rows ocb))).worker_threads = 1) := by
  refine ⟨?_, ?_, ?_⟩
  · simp [clauntty_mosh_client_start, hr]
  · intro ip port key cols rows ocb ops
    have h := applyCtrls_thread_inv ops (mk_client ip port key cols rows ocb)
      (by simp [mk_client])
    rw [h]
    by_cases hq : (applyCtrls (mk_client ip port key cols rows ocb) ops).running = true
    · simp [hq]
    · simp at hq
      simp [hq]
  · intro ip port key cols rows ocb
    rfl

/-- Witness for `c7_at_most_one_worker` at a started sample client. -/
theorem c7_at_most_one_worker_witness :
    clauntty_mosh_client_start (clauntty_mosh_client_start sample_client) =
      clauntty_mosh_client_start sample_client ∧
    (clauntty_mosh_client_start (clauntty_mosh_client_start
      sample_client)).worker_threads = 1 :=
  ⟨(c7_at_most_one_worker (clauntty_mosh_client_start sample_client) rfl).1,
   (c7_at_most_one_worker (clauntty_mosh_client_start sample_client) rfl).2.2
     (some "198.51.100.7") (some "60001") (some "sessionkey") 80 24 true⟩

/-- C5: while output is disabled `emit_frame` delivers nothing and leaves
the client untouched (so no diff bytes ever reach the output callback, and
the local snapshot stays stale); draining never clears a pending repaint
request; and immediately after `setOutputEnabled(true)` the computed frame
request is non-incremental (`incremental = false`) against the remote
snapshot current at that time, whatever state the remote reached while
output was disabled. -/
theorem c5_output_disable_enable (nf : Bool → Nat → Nat → List Nat)
    (c : Client) (nw : NetworkState) (h : c.network = some nw) :
    (∀ c2 : Client, c2.output_enabled = false → emit_frame nf c2 = (c2, [])) ∧
    (∀ c2 : Client, c2.repaint_requested = true →
      (drain_pending c2).repaint_requested = true) ∧
    frame_request (clauntty_mosh_client_set_output_enabled c true) =
      some (false, c.local_framebuffer, nw.latest_remote_fb) ∧
    emit_frame nf (clauntty_mosh_client_set_output_enabled c true) =
      ({ clauntty_mosh_client_set_output_enabled c true with
           repaint_requested := false,
           local_framebuffer := nw.latest_remote_fb },
       if nf false c.local_framebuffer nw.latest_remote_fb ≠ [] ∧
           c.output_cb_present
       then [nf false c.local_framebuffer nw.latest_remote_fb] else []) := by
  refine ⟨?_, ?_, ?_, ?_⟩
  · intro c2 h2
    unfold emit_frame
    cases hn : c2.network with
    | none => rfl
    | some nw2 => simp [h2]
  · intro c2 h2
    rw [drain_pending_eq]
    cases hn : c2.network with
    | none => simpa using h2
    | some nw2 =>
      by_cases hsd : nw2.shutdown_in_progress = true
      · simpa [hsd] using h2
      · have hsd2 : nw2.shutdown_in_progress = false := by
          cases hq : nw2.shutdown_in_progress
          · rfl
          · exact absurd hq hsd
        simp [hsd2, h2]
  · unfold clauntty_mosh_client_set_output_enabled frame_request
    simp [h]
  · unfold clauntty_mosh_client_set_output_enabled emit_frame
    simp [h]

/-- Witness for `c5_output_disable_enable`: a sample client whose transport
advanced to remote snapshot 7 while output was disabled; after re-enabling,
the single frame computed by the renderer `nf1` is requested with
`incremental = false` against snapshot 7. -/
theorem c5_output_disable_enable_witness :
    frame_request (clauntty_mosh_client_set_output_enabled
      { sample_client with
          output_enabled := false,
          network :=
            some { current_sent := [ProtoUnit.resize 80 24],
                   remote_state_num := 2, latest_remote_fb := 7,
                   send_error := "", wait_time := 0,
                   shutdown_in_progress := false } } true) =
      some (false, 0, 7) :=
  (c5_output_disable_enable nf1
    { sample_client with
        output_enabled := false,
        network :=
          some { current_sent := [ProtoUnit.resize 80 24],
                 remote_state_num := 2, latest_remote_fb := 7,
                 send_error := "", wait_time := 0,
                 shutdown_in_progress := false } } _ rfl).2.2.1

lemma applyCall_spec (c : Client) (a : ApiCall) :
    (applyCall c a).pending = c.pending ++ callEvents a ∧
    (applyCall c a).network = c.network := by
  cases a with
  | input bs =>
    cases bs with
    | none => simp [applyCall, clauntty_mosh_client_send_input, callEvents]
    | some l =>
      by_cases hl : l.length = 0
      · simp [applyCall, clauntty_mosh_client_send_input, callEvents, hl]
      · simp [applyCall, clauntty_mosh_client_send_input, callEvents, hl]
  | resize cl r =>
    by_cases hcr : cl ≤ 0 ∨ r ≤ 0
    · simp [applyCall, clauntty_mosh_client_send_resize, callEvents, hcr]
    · simp [applyCall, clauntty_mosh_client_send_resize, callEvents, hcr]

lemma applyCalls_spec (calls : List ApiCall) :
    ∀ c : Client,
      (applyCalls c calls).pending =
        c.pending ++ calls.flatMap callEvents ∧
      (applyCalls c calls).network = c.network := by
  induction calls with
  | nil => intro c; simp [applyCalls]
  | cons a calls ih =>
    intro c
    have h1 := applyCall_spec c a
    have h2 := ih (applyCall c a)
    constructor
    · rw [applyCalls, List.foldl_cons]
      rw [show calls.foldl applyCall (applyCall c a) = applyCalls (applyCall c a) calls from rfl]
      rw [h2.1, h1.1]
      simp [List.flatMap_cons, List.append_assoc]
    · rw [applyCalls, List.foldl_cons]
      rw [show calls.foldl applyCall (applyCall c a) = applyCalls (applyCall c a) calls from rfl]
      rw [h2.2, h1.2]

lemma callEvents_map (a : ApiCall) :
    (callEvents a).map eventToUnit = callUnits a := by
  cases a with
  | input bs =>
    cases bs with
    | none => rfl
    | some l =>
      by_cases hl : l.length = 0
      · simp [callEvents, callUnits, hl]
      · simp [callEvents, callUnits, hl, List.map_map, Function.comp,
          eventToUnit]
  | resize cl r =>
    by_cases hcr : cl ≤ 0 ∨ r ≤ 0
    · simp [callEvents, callUnits, hcr]
    · simp [callEvents, callUnits, hcr, eventToUnit]

lemma flatMap_callEvents_map (calls : List ApiCall) :
    (calls.flatMap callEvents).map eventToUnit = calls.flatMap callUnits := by
  induction calls with
  | nil => rfl
  | cons a calls ih =>
    simp only [List.flatMap_cons, List.map_append, callEvents_map, ih]

/-- C4: any sequence of `sendInput`/`sendResize` calls followed by a drain
empties the queue and forwards the corresponding protocol units to the
transport in exact submission order, regardless of type mixing: each byte
becomes one `UserByte` unit, each resize one `Resize` unit. -/
theorem c4_drain_preserves_order (c : Client) (nw : NetworkState)
    (calls : List ApiCall) (h : c.network = some nw)
    (hsd : nw.shutdown_in_progress = false) (hp : c.pending = []) :
    (drain_pending (applyCalls c calls)).pending = [] ∧
    (drain_pending (applyCalls c calls)).network =
      some { nw with
               current_sent :=
                 nw.current_sent ++ calls.flatMap callUnits } := by
  have hac := applyCalls_spec calls c
  simp only [drain_pending_eq, hac.2, h]
  rw [if_neg (by rw [hsd]; exact Bool.false_ne_true)]
  refine ⟨rfl, ?_⟩
  show some _ = some _
  rw [hac.1, hp, List.nil_append, flatMap_callEvents_map]

/-- Witness for `c4_drain_preserves_order`: enqueue bytes 0x68 then 0x69
("hi") on a fresh client; the drain forwards exactly the two user-input
units 0x68 then 0x69, in that order, after the constructor's initial
resize unit. -/
theorem c4_drain_preserves_order_witness :
    (drain_pending (applyCalls sample_client
        [ApiCall.input (some [104, 105])])).network =
      some { current_sent :=
               [ProtoUnit.resize 80 24, ProtoUnit.userByte 104,
                ProtoUnit.userByte 105],
             remote_state_num := 0, latest_remote_fb := 0, send_error := "",
             wait_time := 0, shutdown_in_progress := false } :=
  (c4_drain_preserves_order sample_client _
    [ApiCall.input (some [104, 105])] rfl rfl rfl).2

lemma loop_body_normal (nf : Bool → Nat → Nat → List Nat) (c : Client)
    (ext : IterExternal) (h : ext.exc = none) :
    loop_body nf c ext =
      ⟨(send_error_check (apply_tick (apply_recv
          (maybe_report_connected (emit_frame nf (drain_pending c)).1).1 ext)
          ext)).1,
       (emit_frame nf (drain_pending c)).2,
       (maybe_report_connected (emit_frame nf (drain_pending c)).1).2 ++
         (send_error_check (apply_tick (apply_recv
           (maybe_report_connected (emit_frame nf (drain_pending c)).1).1 ext)
           ext)).2,
       false⟩ := by
  simp [loop_body, excPoint, h]

lemma loop_body_atDrain (nf : Bool → Nat → Nat → List Nat) (c : Client)
    (ext : IterExternal) (e : IterExc)
    (h : ext.exc = some (ExcPoint.atDrain, e)) :
    loop_body nf c ext = excResult c [] [] e := by
  simp [loop_body, excPoint, h]

lemma loop_body_atEmit (nf : Bool → Nat → Nat → List Nat) (c : Client)
    (ext : IterExternal) (e : IterExc)
    (h : ext.exc = some (ExcPoint.atEmit, e)) :
    loop_body nf c ext = excResult (drain_pending c) [] [] e := by
  simp [loop_body, excPoint, h]

lemma loop_body_atWait (nf : Bool → Nat → Nat → List Nat) (c : Client)
    (ext : IterExternal) (e : IterExc)
    (h : ext.exc = some (ExcPoint.atWait, e)) :
    loop_body nf c ext =
      excResult (maybe_report_connected (emit_frame nf (drain_pending c)).1).1
        (emit_frame nf (drain_pending c)).2
        (maybe_report_connected (emit_frame nf (drain_pending c)).1).2 e := by
  simp [loop_body, excPoint, h]

lemma loop_body_atRecv (nf : Bool → Nat → Nat → List Nat) (c : Client)
    (ext : IterExternal) (e : IterExc)
    (h : ext.exc = some (ExcPoint.atRecv, e)) :
    loop_body nf c ext =
      excResult (maybe_report_connected (emit_frame nf (drain_pending c)).1).1
        (emit_frame nf (drain_pending c)).2
        (maybe_report_connected (emit_frame nf (drain_pending c)).1).2 e := by
  simp [loop_body, excPoint, h]

lemma loop_body_atTick (nf : Bool → Nat → Nat → List Nat) (c : Client)
    (ext : IterExternal) (e : IterExc)
    (h : ext.exc = some (ExcPoint.atTick, e)) :
    loop_body nf c ext =
      excResult (apply_recv
          (maybe_report_connected (emit_frame nf (drain_pending c)).1).1 ext)
        (emit_frame nf (drain_pending c)).2
        (maybe_report_connected (emit_frame nf (drain_pending c)).1).2 e := by
  simp [loop_body, excPoint, h]

lemma countConnected_append (a b : List Event) :
    countConnected (a ++ b) = countConnected a + countConnected b := by
  simp [countConnected, List.filter_append]

lemma mrc_of_reported (c : Client) (h : c.connected_reported = true) :
    maybe_report_connected c = (c, []) := by
  simp [maybe_report_connected, h]

lemma mrc_events_cases (c : Client) :
    (maybe_report_connected c).2 = [] ∨
    ((maybe_report_connected c).2 = [Event.connected none] ∧
      c.connected_reported = false ∧
      (maybe_report_connected c).1.connected_reported = true) := by
  unfold maybe_report_connected
  by_cases h : c.connected_reported = true
  · simp [h]
  · have h2 : c.connected_reported = false := by
      cases hq : c.connected_reported
      · rfl
      · exact absurd hq h
    cases hn : c.network with
    | none => simp [h2, hn]
    | some nw =>
      by_cases hz : nw.remote_state_num = 0
      · simp [h2, hn, hz]
      · simp [h2, hn, hz]

lemma mrc_connected_mono (c : Client) (h : c.connected_reported = true) :
    (maybe_report_connected c).1.connected_reported = true := by
  rw [mrc_of_reported c h]
  exact h

lemma mrc_count (c : Client) :
    countConnected (maybe_report_connected c).2 =
      if c.connected_reported then 0
      else if (maybe_report_connected c).1.connected_reported then 1 else 0 := by
  rcases mrc_events_cases c with h | ⟨h1, h2, h3⟩
  · rw [h]
    by_cases hr : c.connected_reported = true
    · simp [hr, countConnected]
    · have hr2 : c.connected_reported = false := by
        cases hq : c.connected_reported
        · rfl
        · exact absurd hq hr
      have h4 : (maybe_report_connected c).1.connected_reported = false := by
        unfold maybe_report_connected at *
        by_cases hn : c.network = none
        · simp [hr2, hn] at *
        · cases hnn : c.network with
          | none => simp [hr2, hnn]
          | some nw =>
            by_cases hz : nw.remote_state_num = 0
            · simp [hr2, hnn, hz]
            · simp [hr2, hnn, hz] at h ⊢
      simp [hr2, h4, countConnected]
  · rw [h1, h2, h3]
    simp [countConnected, isConnectedEv]

lemma drain_pending_connected (c : Client) :
    (drain_pending c).connected_reported = c.connected_reported := by
  rw [drain_pending_eq]
  cases hn : c.network with
  | none => rfl
  | some nw =>
    by_cases hsd : nw.shutdown_in_progress = true
    · simp [hsd]
    · have hsd2 : nw.shutdown_in_progress = false := by
        cases hq : nw.shutdown_in_progress
        · rfl
        · exact absurd hq hsd
      simp [hsd2]

lemma emit_frame_client_fields (nf : Bool → Nat → Nat → List Nat)
    (c : Client) :
    (emit_frame nf c).1.connected_reported = c.connected_reported ∧
    (emit_frame nf c).1.network = c.network := by
  unfold emit_frame
  cases hn : c.network with
  | none => simp [hn]
  | some nw =>
    by_cases ho : c.output_enabled = true
    · simp [ho, hn]
    · have ho2 : c.output_enabled = false := by
        cases hq : c.output_enabled
        · rfl
        · exact absurd hq ho
      simp [ho2, hn]

lemma mrc_network (c : Client) :
    (maybe_report_connected c).1.network = c.network := by
  unfold maybe_report_connected
  by_cases h : c.connected_reported = true
  · simp [h]
  · have h2 : c.connected_reported = false := by
      cases hq : c.connected_reported
      · rfl
      · exact absurd hq h
    cases hn : c.network with
    | none => simp [h2, hn]
    | some nw =>
      by_cases hz : nw.remote_state_num = 0
      · simp [h2, hn, hz]
      · simp [h2, hn, hz]

lemma apply_recv_fields (c : Client) (ext : IterExternal) :
    (apply_recv c ext).connected_reported = c.connected_reported ∧
    ((apply_recv c ext).network.map NetworkState.send_error =
      c.network.map NetworkState.send_error) := by
  unfold apply_recv
  by_cases hr : ext.recv_ready = true
  · cases hn : c.network with
    | none => simp [hr, hn]
    | some nw => simp [hr, hn]
  · have hr2 : ext.recv_ready = false := by
      cases hq : ext.recv_ready
      · rfl
      · exact absurd hq hr
    simp [hr2]

lemma apply_tick_fields (c : Client) (ext : IterExternal) :
    (apply_tick c ext).connected_reported = c.connected_reported ∧
    ((apply_tick c ext).network.map NetworkState.send_error =
      if ext.tick_send_error = "" then c.network.map NetworkState.send_error
      else c.network.map (fun _ => ext.tick_send_error)) := by
  unfold apply_tick
  cases hn : c.network with
  | none => by_cases ht : ext.tick_send_error = "" <;> simp [hn, ht]
  | some nw =>
    by_cases ht : ext.tick_send_error = ""
    · simp [hn, ht]
    · simp [hn, ht]

lemma send_error_check_spec (c : Client) (nw : NetworkState)
    (h : c.network = some nw) :
    (nw.send_error = "" → send_error_check c = (c, [])) ∧
    (nw.send_error ≠ "" →
      (send_error_check c).2 = [Event.networkError (some nw.send_error)] ∧
      (send_error_check c).1.network.map NetworkState.send_error = some "" ∧
      (send_error_check c).1.connected_reported = c.connected_reported) := by
  unfold send_error_check
  constructor
  · intro hse
    rw [h]
    simp only [hse]
    simp [← h]
  · intro hse
    rw [h]
    simp [hse]

lemma send_error_check_connected (c : Client) :
    (send_error_check c).1.connected_reported = c.connected_reported := by
  unfold send_error_check
  cases hn : c.network with
  | none => rfl
  | some nw =>
    by_cases hse : nw.send_error = ""
    · simp [hse]
    · simp [hse]

lemma send_error_check_no_connected (c : Client) :
    countConnected (send_error_check c).2 = 0 := by
  unfold send_error_check
  cases hn : c.network with
  | none => rfl
  | some nw =>
    by_cases hse : nw.send_error = ""
    · simp [hse, countConnected]
    · simp [hse, countConnected, isConnectedEv]

lemma handle_exc_no_connected (e : IterExc) :
    countConnected (handle_exc e).1 = 0 := by
  cases e with
  | net m => simp [handle_exc, countConnected, isConnectedEv]
  | crypto m f => simp [handle_exc, countConnected, isConnectedEv]
  | other m => simp [handle_exc, countConnected, isConnectedEv]

/-- A `CONNECTED` event that carries a message (never produced by the
wrapper, which always reports connection with a null message). -/
def isConnectedWithMsg : Event → Bool
  | Event.connected (some _) => true
  | _ => false

lemma excResult_eq (c : Client) (outs : List (List Nat)) (evs : List Event)
    (e : IterExc) :
    excResult c outs evs e =
      ⟨c, outs, evs ++ (handle_exc e).1, (handle_exc e).2⟩ := by
  rfl

lemma if_connected_collapse (b : Bool) :
    (if b = true then 0 else if b = true then 1 else 0) = 0 := by
  cases b <;> simp

lemma loop_body_connected (nf : Bool → Nat → Nat → List Nat) (c : Client)
    (ext : IterExternal) :
    countConnected (loop_body nf c ext).events =
      (if c.connected_reported then 0
       else if (loop_body nf c ext).client.connected_reported then 1
       else 0) ∧
    (c.connected_reported = true →
      (loop_body nf c ext).client.connected_reported = true) := by
  have hd := drain_pending_connected c
  have he := (emit_frame_client_fields nf (drain_pending c)).1
  set c2 := (emit_frame nf (drain_pending c)).1 with hc2
  have hc2conn : c2.connected_reported = c.connected_reported := by
    rw [he, hd]
  set c3 := (maybe_report_connected c2).1 with hc3
  have hmrc := mrc_count c2
  rw [hc2conn] at hmrc
  cases hexc : ext.exc with
  | none =>
    rw [loop_body_normal nf c ext hexc]
    have hr := (apply_recv_fields c3 ext).1
    set c4 := apply_recv c3 ext with hc4
    have ht := (apply_tick_fields c4 ext).1
    set c5 := apply_tick c4 ext with hc5
    have hs := send_error_check_connected c5
    constructor
    · rw [countConnected_append, send_error_check_no_connected, Nat.add_zero,
        hmrc, hs, ht, hr]
    · intro hcr
      rw [hs, ht, hr]
      apply mrc_connected_mono
      rw [hc2conn]
      exact hcr
  | some pe =>
    rcases pe with ⟨pt, e⟩
    have hhc := handle_exc_no_connected e
    cases pt with
    | atDrain =>
      rw [loop_body_atDrain nf c ext e hexc, excResult_eq]
      refine ⟨?_, fun hcr => hcr⟩
      simp only [List.nil_append, hhc]
      rw [if_connected_collapse]
    | atEmit =>
      rw [loop_body_atEmit nf c ext e hexc, excResult_eq]
      refine ⟨?_, fun hcr => ?_⟩
      · simp only [List.nil_append, hhc]
        rw [hd, if_connected_collapse]
      · rw [hd]; exact hcr
    | atWait =>
      rw [loop_body_atWait nf c ext e hexc, excResult_eq]
      refine ⟨?_, fun hcr => ?_⟩
      · rw [countConnected_append, hhc, Nat.add_zero, hmrc]
      · apply mrc_connected_mono
        rw [hc2conn]
        exact hcr
    | atRecv =>
      rw [loop_body_atRecv nf c ext e hexc, excResult_eq]
      refine ⟨?_, fun hcr => ?_⟩
      · rw [countConnected_append, hhc, Nat.add_zero, hmrc]
      · apply mrc_connected_mono
        rw [hc2conn]
        exact hcr
    | atTick =>
      rw [loop_body_atTick nf c ext e hexc, excResult_eq]
      have hr := (apply_recv_fields c3 ext).1
      refine ⟨?_, fun hcr => ?_⟩
      · rw [countConnected_append, hhc, Nat.add_zero, hmrc, hr]
      · rw [hr]
        apply mrc_connected_mono
        rw [hc2conn]
        exact hcr

lemma loop_run_nil (nf : Bool → Nat → Nat → List Nat) (c : Client) :
    loop_run nf c [] = (c, [Event.exit none]) := rfl

lemma loop_run_cons_brk (nf : Bool → Nat → Nat → List Nat) (c : Client)
    (ext : IterExternal) (exts : List IterExternal)
    (h : (loop_body nf c ext).brk = true) :
    loop_run nf c (ext :: exts) =
      ((loop_body nf c ext).client,
       (loop_body nf c ext).events ++ [Event.exit none]) := by
  simp only [loop_run, h, if_true]

lemma loop_run_cons_cont (nf : Bool → Nat → Nat → List Nat) (c : Client)
    (ext : IterExternal) (exts : List IterExternal)
    (h : (loop_body nf c ext).brk = false) :
    loop_run nf c (ext :: exts) =
      ((loop_run nf (loop_body nf c ext).client exts).1,
       (loop_body nf c ext).events ++
         (loop_run nf (loop_body nf c ext).client exts).2) := by
  simp only [loop_run, h, Bool.false_eq_true, if_false]

lemma loop_run_connected (nf : Bool → Nat → Nat → List Nat)
    (exts : List IterExternal) :
    ∀ c : Client,
      countConnected (loop_run nf c exts).2 =
        (if c.connected_reported then 0
         else if (loop_run nf c exts).1.connected_reported then 1 else 0) ∧
      (c.connected_reported = true →
        (loop_run nf c exts).1.connected_reported = true) := by
  induction exts with
  | nil =>
    intro c
    rw [loop_run_nil]
    refine ⟨?_, fun hcr => hcr⟩
    rw [show countConnected [Event.exit none] = 0 from rfl,
      if_connected_collapse]
  | cons ext exts ih =>
    intro c
    have hb := loop_body_connected nf c ext
    cases hbrk : (loop_body nf c ext).brk with
    | true =>
      rw [loop_run_cons_brk nf c ext exts hbrk]
      constructor
      · rw [countConnected_append,
          show countConnected [Event.exit none] = 0 from rfl, Nat.add_zero]
        exact hb.1
      · exact hb.2
    | false =>
      have hrest := ih (loop_body nf c ext).client
      rw [loop_run_cons_cont nf c ext exts hbrk]
      constructor
      · rw [countConnected_append, hb.1, hrest.1]
        by_cases hcr : c.connected_reported = true
        · have h2 := hb.2 hcr
          have h3 := hrest.2 h2
          simp [hcr, h2, h3]
        · have hcr2 : c.connected_reported = false := by
            cases hq : c.connected_reported
            · rfl
            · exact absurd hq hcr
          by_cases hmid : (loop_body nf c ext).client.connected_reported = true
          · have h3 := hrest.2 hmid
            simp [hcr2, hmid, h3]
          · have hmid2 : (loop_body nf c ext).client.connected_reported = false := by
              cases hq : (loop_body nf c ext).client.connected_reported
              · rfl
              · exact absurd hq hmid
            simp [hcr2, hmid2]
      · intro hcr
        exact hrest.2 (hb.2 hcr)

lemma mrc_no_msg (c : Client) :
    (maybe_report_connected c).2.all (fun e => !isConnectedWithMsg e) = true := by
  rcases mrc_events_cases c with h | ⟨h1, _, _⟩
  · rw [h]; rfl
  · rw [h1]; rfl

lemma sec_no_msg (c : Client) :
    (send_error_check c).2.all (fun e => !isConnectedWithMsg e) = true := by
  unfold send_error_check
  cases hn : c.network with
  | none => rfl
  | some nw =>
    by_cases hse : nw.send_error = ""
    · simp [hse]
    · simp [hse, isConnectedWithMsg]

lemma handle_no_msg (e : IterExc) :
    (handle_exc e).1.all (fun e => !isConnectedWithMsg e) = true := by
  cases e <;> rfl

lemma mrc_no_neterr (c : Client) :
    countNetErr (maybe_report_connected c).2 = 0 := by
  rcases mrc_events_cases c with h | ⟨h1, _, _⟩
  · rw [h]; rfl
  · rw [h1]; rfl

lemma countNetErr_append (a b : List Event) :
    countNetErr (a ++ b) = countNetErr a + countNetErr b := by
  simp [countNetErr, List.filter_append]

lemma loop_body_no_msg (nf : Bool → Nat → Nat → List Nat) (c : Client)
    (ext : IterExternal) :
    (loop_body nf c ext).events.all (fun e => !isConnectedWithMsg e) = true := by
  cases hexc : ext.exc with
  | none =>
    rw [loop_body_normal nf c ext hexc]
    rw [List.all_append, mrc_no_msg, sec_no_msg]
    rfl
  | some pe =>
    rcases pe with ⟨pt, e⟩
    cases pt
    · rw [loop_body_atDrain nf c ext e hexc, excResult_eq]
      simpa using handle_no_msg e
    · rw [loop_body_atEmit nf c ext e hexc, excResult_eq]
      simpa using handle_no_msg e
    · rw [loop_body_atWait nf c ext e hexc, excResult_eq]
      rw [List.all_append, mrc_no_msg, handle_no_msg]
      rfl
    · rw [loop_body_atRecv nf c ext e hexc, excResult_eq]
      rw [List.all_append, mrc_no_msg, handle_no_msg]
      rfl
    · rw [loop_body_atTick nf c ext e hexc, excResult_eq]
      rw [List.all_append, mrc_no_msg, handle_no_msg]
      rfl

lemma loop_run_no_msg (nf : Bool → Nat → Nat → List Nat)
    (exts : List IterExternal) :
    ∀ c : Client,
      (loop_run nf c exts).2.all (fun e => !isConnectedWithMsg e) = true := by
  induction exts with
  | nil => intro c; rw [loop_run_nil]; rfl
  | cons ext exts ih =>
    intro c
    cases hbrk : (loop_body nf c ext).brk with
    | true =>
      rw [loop_run_cons_brk nf c ext exts hbrk, List.all_append,
        loop_body_no_msg]
      rfl
    | false =>
      rw [loop_run_cons_cont nf c ext exts hbrk, List.all_append,
        loop_body_no_msg, ih]
      rfl

/-- C6: over any run of the driver loop the `Connected` event is emitted at
most once; starting from an unreported client it is emitted exactly once iff
the run latches `connectedReported` (the flag transitions false→true at most
once and is never reset); every `Connected` event in the stream carries no
message; and the connection check emits `[Connected]` exactly when it first
observes a nonzero received-state counter. -/
theorem c6_connected_reported_once (nf : Bool → Nat → Nat → List Nat)
    (c : Client) (exts : List IterExternal) (c2 : Client) (nw : NetworkState)
    (h2 : c2.connected_reported = false) (hn : c2.network = some nw) :
    countConnected (loop_run nf c exts).2 ≤ 1 ∧
    (c.connected_reported = false →
      countConnected (loop_run nf c exts).2 =
        if (loop_run nf c exts).1.connected_reported then 1 else 0) ∧
    (loop_run nf c exts).2.all (fun e => !isConnectedWithMsg e) = true ∧
    (maybe_report_connected c2).2 =
      (if nw.remote_state_num ≠ 0 then [Event.connected none] else []) := by
  have hr := loop_run_connected nf exts c
  refine ⟨?_, ?_, loop_run_no_msg nf exts c, ?_⟩
  · rw [hr.1]
    by_cases hcr : c.connected_reported = true
    · simp [hcr]
    · have hcr2 : c.connected_reported = false := by
        cases hq : c.connected_reported
        · rfl
        · exact absurd hq hcr
      by_cases hfin : (loop_run nf c exts).1.connected_reported = true
      · simp [hcr2, hfin]
      · have hfin2 : (loop_run nf c exts).1.connected_reported = false := by
          cases hq : (loop_run nf c exts).1.connected_reported
          · rfl
          · exact absurd hq hfin
        simp [hcr2, hfin2]
  · intro hcr
    rw [hr.1, hcr]
    simp
  · unfold maybe_report_connected
    rw [h2, hn]
    by_cases hz : nw.remote_state_num = 0
    · simp [hz]
    · simp [hz]

/-- Witness for `c6_connected_reported_once`: a two-iteration run of a fresh
client in which the first iteration's `recv` delivers the first remote state
(counter 1, snapshot 5) and the second iteration's connection check reports
it. -/
theorem c6_connected_reported_once_witness :
    countConnected (loop_run nf0 sample_client
        [⟨none, true, (1, 5), ""⟩, ⟨none, false, (0, 0), ""⟩]).2 =
      if (loop_run nf0 sample_client
          [⟨none, true, (1, 5), ""⟩, ⟨none, false, (0, 0), ""⟩]).1.connected_reported
      then 1 else 0 :=
  (c6_connected_reported_once nf0 sample_client
    [⟨none, true, (1, 5), ""⟩, ⟨none, false, (0, 0), ""⟩]
    sample_client _ rfl rfl).2.1 rfl

lemma drain_send_error (c : Client) (nw : NetworkState)
    (h : c.network = some nw) :
    ∃ nw2, (drain_pending c).network = some nw2 ∧
      nw2.send_error = nw.send_error := by
  rw [drain_pending_eq, h]
  by_cases hsd : nw.shutdown_in_progress = true
  · exact ⟨nw, by simp [hsd], rfl⟩
  · have hsd2 : nw.shutdown_in_progress = false := by
      cases hq : nw.shutdown_in_progress
      · rfl
      · exact absurd hq hsd
    exact ⟨{ nw with current_sent := nw.current_sent ++ c.pending.map eventToUnit },
      by simp [hsd2], rfl⟩

lemma pre_tick_send_error (nf : Bool → Nat → Nat → List Nat) (c : Client)
    (ext : IterExternal) (nw : NetworkState) (h : c.network = some nw) :
    ∃ nw4,
      (apply_recv (maybe_report_connected
        (emit_frame nf (drain_pending c)).1).1 ext).network = some nw4 ∧
      nw4.send_error = nw.send_error := by
  obtain ⟨nw1, h1, hse1⟩ := drain_send_error c nw h
  have h2 := (emit_frame_client_fields nf (drain_pending c)).2
  have h3 := mrc_network (emit_frame nf (drain_pending c)).1
  have h4 := (apply_recv_fields
    (maybe_report_connected (emit_frame nf (drain_pending c)).1).1 ext).2
  rw [h3, h2, h1] at h4
  simp only [Option.map_some'] at h4
  obtain ⟨nw4, hn4, hs4⟩ := Option.map_eq_some'.mp h4
  exact ⟨nw4, hn4, by rw [hs4, hse1]⟩

lemma loop_body_clean_no_neterr (nf : Bool → Nat → Nat → List Nat)
    (c : Client) (ext : IterExternal) (hexc : ext.exc = none)
    (ht : ext.tick_send_error = "") (nw : NetworkState)
    (h : c.network = some nw) (hse : nw.send_error = "") :
    countNetErr (loop_body nf c ext).events = 0 := by
  rw [loop_body_normal nf c ext hexc]
  obtain ⟨nw4, h4, hse4⟩ := pre_tick_send_error nf c ext nw h
  have ht2 := (apply_tick_fields (apply_recv (maybe_report_connected
    (emit_frame nf (drain_pending c)).1).1 ext) ext).2
  rw [if_pos ht, h4] at ht2
  simp only [Option.map_some'] at ht2
  obtain ⟨nw5, hn5, hs5⟩ := Option.map_eq_some'.mp ht2
  have hsec := (send_error_check_spec _ nw5 hn5).1 (by rw [hs5, hse4, hse])
  show countNetErr (_ ++ (send_error_check _).2) = 0
  rw [hsec, countNetErr_append, mrc_no_neterr]
  rfl

/-- C9: when the transport reports a pending send-error message `m` during
the tick step of an exception-free iteration, exactly one `NetworkError`
event is emitted, carrying `m`, as the last event of the iteration; the
iteration does not break the loop; and the message is cleared, so a
following exception-free iteration in which the transport reports nothing
emits no `NetworkError` at all. -/
theorem c9_tick_send_error (nf : Bool → Nat → Nat → List Nat) (c : Client)
    (nw : NetworkState) (m : String) (rd : Bool) (upd : Nat × Nat)
    (h : c.network = some nw) (hm : m ≠ "") :
    countNetErr (loop_body nf c ⟨none, rd, upd, m⟩).events = 1 ∧
    (loop_body nf c ⟨none, rd, upd, m⟩).events.getLast? =
      some (Event.networkError (some m)) ∧
    (loop_body nf c ⟨none, rd, upd, m⟩).brk = false ∧
    (loop_body nf c ⟨none, rd, upd, m⟩).client.network.map
      NetworkState.send_error = some "" ∧
    (∀ ext2 : IterExternal, ext2.exc = none → ext2.tick_send_error = "" →
      ∀ nw6, (loop_body nf c ⟨none, rd, upd, m⟩).client.network = some nw6 →
      countNetErr (loop_body nf
        (loop_body nf c ⟨none, rd, upd, m⟩).client ext2).events = 0) := by
  have hexc : (⟨none, rd, upd, m⟩ : IterExternal).exc = none := rfl
  rw [loop_body_normal nf c ⟨none, rd, upd, m⟩ hexc]
  obtain ⟨nw4, h4, hse4⟩ :=
    pre_tick_send_error nf c ⟨none, rd, upd, m⟩ nw h
  have ht2 := (apply_tick_fields (apply_recv (maybe_report_connected
    (emit_frame nf (drain_pending c)).1).1 ⟨none, rd, upd, m⟩)
    ⟨none, rd, upd, m⟩).2
  rw [if_neg (by exact hm), h4] at ht2
  simp only [Option.map_some'] at ht2
  obtain ⟨nw5, hn5, hs5⟩ := Option.map_eq_some'.mp ht2
  have hm5 : nw5.send_error ≠ "" := by rw [hs5]; exact hm
  have hsec := (send_error_check_spec _ nw5 hn5).2 hm5
  refine ⟨?_, ?_, rfl, ?_, ?_⟩
  · show countNetErr (_ ++ (send_error_check _).2) = 1
    rw [hsec.1, countNetErr_append, mrc_no_neterr, hs5]
    rfl
  · show (_ ++ (send_error_check _).2).getLast? = _
    rw [hsec.1, hs5, List.getLast?_concat]
  · exact hsec.2.1
  · intro ext2 hexc2 ht2b nw6 hn6
    have hse6 : nw6.send_error = "" := by
      have := hsec.2.1
      rw [hn6] at this
      simp only [Option.map_some'] at this
      exact Option.some.inj this
    exact loop_body_clean_no_neterr nf _ ext2 hexc2 ht2b nw6 hn6 hse6

/-- Witness for `c9_tick_send_error`: the transport reports
"connection refused" during tick on a fresh client. -/
theorem c9_tick_send_error_witness :
    countNetErr (loop_body nf0 sample_client
      ⟨none, false, (0, 0), "connection refused"⟩).events = 1 :=
  (c9_tick_send_error nf0 sample_client _ "connection refused" false (0, 0)
    rfl (by decide)).1

lemma exitFree_append (a b : List Event) :
    exitFree (a ++ b) = (exitFree a && exitFree b) := by
  simp [exitFree, List.all_append]

lemma mrc_exitFree (c : Client) :
    exitFree (maybe_report_connected c).2 = true := by
  rcases mrc_events_cases c with h | ⟨h1, _, _⟩
  · rw [h]; rfl
  · rw [h1]; rfl

lemma sec_exitFree (c : Client) :
    exitFree (send_error_check c).2 = true := by
  unfold send_error_check
  cases hn : c.network with
  | none => rfl
  | some nw =>
    by_cases hse : nw.send_error = ""
    · simp [hse, exitFree]
    · simp [hse, exitFree, isExitEv]

lemma isOtherExc_iff (ext : IterExternal) :
    isOtherExc ext = true ↔
      ∃ pt m, ext.exc = some (pt, IterExc.other m) := by
  unfold isOtherExc
  cases hexc : ext.exc with
  | none => simp
  | some pe =>
    rcases pe with ⟨pt, e⟩
    cases e with
    | net m => simp
    | crypto m f => simp
    | other m => simp

lemma loop_body_exitFree (nf : Bool → Nat → Nat → List Nat) (c : Client)
    (ext : IterExternal) (h : isOtherExc ext = false) :
    exitFree (loop_body nf c ext).events = true := by
  cases hexc : ext.exc with
  | none =>
    rw [loop_body_normal nf c ext hexc]
    rw [exitFree_append, mrc_exitFree, sec_exitFree]
    rfl
  | some pe =>
    rcases pe with ⟨pt, e⟩
    have hfree : exitFree (handle_exc e).1 = true := by
      cases e with
      | net m => rfl
      | crypto m f => rfl
      | other m =>
        exact absurd ((isOtherExc_iff ext).mpr ⟨pt, m, hexc⟩)
          (by rw [h]; exact Bool.false_ne_true)
    cases pt
    · rw [loop_body_atDrain nf c ext e hexc, excResult_eq]
      simpa using hfree
    · rw [loop_body_atEmit nf c ext e hexc, excResult_eq]
      simpa using hfree
    · rw [loop_body_atWait nf c ext e hexc, excResult_eq]
      rw [exitFree_append, mrc_exitFree, hfree]
      rfl
    · rw [loop_body_atRecv nf c ext e hexc, excResult_eq]
      rw [exitFree_append, mrc_exitFree, hfree]
      rfl
    · rw [loop_body_atTick nf c ext e hexc, excResult_eq]
      rw [exitFree_append, mrc_exitFree, hfree]
      rfl

lemma loop_body_other_shape (nf : Bool → Nat → Nat → List Nat) (c : Client)
    (ext : IterExternal) (pt : ExcPoint) (m : String)
    (h : ext.exc = some (pt, IterExc.other m)) :
    ∃ pre, exitFree pre = true ∧
      (loop_body nf c ext).events = pre ++ [Event.exit (some m)] ∧
      (loop_body nf c ext).brk = true := by
  cases pt
  · rw [loop_body_atDrain nf c ext _ h, excResult_eq]
    exact ⟨[], rfl, rfl, rfl⟩
  · rw [loop_body_atEmit nf c ext _ h, excResult_eq]
    exact ⟨[], rfl, rfl, rfl⟩
  · rw [loop_body_atWait nf c ext _ h, excResult_eq]
    exact ⟨_, mrc_exitFree _, rfl, rfl⟩
  · rw [loop_body_atRecv nf c ext _ h, excResult_eq]
    exact ⟨_, mrc_exitFree _, rfl, rfl⟩
  · rw [loop_body_atTick nf c ext _ h, excResult_eq]
    exact ⟨_, mrc_exitFree _, rfl, rfl⟩

lemma loop_run_exit_shape (nf : Bool → Nat → Nat → List Nat)
    (exts : List IterExternal) :
    ∀ c : Client,
      ((∃ body, exitFree body = true ∧
          (loop_run nf c exts).2 = body ++ [Event.exit none]) ∨
       (∃ body m, exitFree body = true ∧
          (loop_run nf c exts).2 =
            body ++ [Event.exit (some m), Event.exit none])) ∧
      ((∀ ext ∈ exts, isOtherExc ext = false) →
        ∃ body, exitFree body = true ∧
          (loop_run nf c exts).2 = body ++ [Event.exit none]) := by
  induction exts with
  | nil =>
    intro c
    rw [loop_run_nil]
    exact ⟨Or.inl ⟨[], rfl, rfl⟩, fun _ => ⟨[], rfl, rfl⟩⟩
  | cons ext exts ih =>
    intro c
    cases hoth : isOtherExc ext with
    | true =>
      obtain ⟨pt, m, hexc⟩ := (isOtherExc_iff ext).mp hoth
      obtain ⟨pre, hpre, hev, hbrk⟩ :=
        loop_body_other_shape nf c ext pt m hexc
      rw [loop_run_cons_brk nf c ext exts hbrk]
      constructor
      · right
        exact ⟨pre, m, hpre, by rw [hev, List.append_assoc]; rfl⟩
      · intro hclean
        exact absurd (hclean ext (List.mem_cons_self ext exts))
          (by rw [hoth]; simp)
    | false =>
      have hfree := loop_body_exitFree nf c ext hoth
      cases hbrk : (loop_body nf c ext).brk with
      | true =>
        rw [loop_run_cons_brk nf c ext exts hbrk]
        exact ⟨Or.inl ⟨_, hfree, rfl⟩, fun _ => ⟨_, hfree, rfl⟩⟩
      | false =>
        have hrest := ih (loop_body nf c ext).client
        rw [loop_run_cons_cont nf c ext exts hbrk]
        constructor
        · rcases hrest.1 with ⟨body, hb, he⟩ | ⟨body, m, hb, he⟩
          · left
            refine ⟨(loop_body nf c ext).events ++ body, ?_, ?_⟩
            · rw [exitFree_append, hfree, hb]; rfl
            · rw [he, List.append_assoc]
          · right
            refine ⟨(loop_body nf c ext).events ++ body, m, ?_, ?_⟩
            · rw [exitFree_append, hfree, hb]; rfl
            · rw [he, List.append_assoc]
        · intro hclean
          obtain ⟨body, hb, he⟩ := hrest.2
            (fun e2 he2 => hclean e2 (List.mem_cons_of_mem ext he2))
          refine ⟨(loop_body nf c ext).events ++ body, ?_, ?_⟩
          · rw [exitFree_append, hfree, hb]; rfl
          · rw [he, List.append_assoc]

/-- C1 counterexample: the claim "the Exit event is delivered exactly once
per run" fails on the code.  A run ended by an unclassified failure emits
`EXIT` twice: once with the message inside the catch clause (line 276) and
once more, with a null message, after the loop (line 281).  Moreover a run
ended by a fatal crypto failure delivers its single `EXIT` with no message —
the triggering message travels in the preceding `CRYPTO_ERROR` event — so
the failure-driven Exit does not carry the failure message there either. -/
theorem c1_exit_counterexample :
    countExit (loop_run nf0 sample_client
      [⟨some (ExcPoint.atDrain, IterExc.other "terminal failure"), false,
        (0, 0), ""⟩]).2 = 2 ∧
    (loop_run nf0 sample_client
      [⟨some (ExcPoint.atDrain, IterExc.other "terminal failure"), false,
        (0, 0), ""⟩]).2 =
      [Event.exit (some "terminal failure"), Event.exit none] ∧
    (loop_run nf0 sample_client
      [⟨some (ExcPoint.atDrain, IterExc.crypto "fatal crypto" true), false,
        (0, 0), ""⟩]).2 =
      [Event.cryptoError (some "fatal crypto"), Event.exit none] := by
  refine ⟨rfl, rfl, rfl⟩

/-- C1 as amended: every run of the driver loop ends with a final `Exit`
event carrying no message; apart from that final event the stream contains
at most one further `Exit` — present exactly in runs ended by an
unclassified failure, where it immediately precedes the final one and
carries the failure message; a run with no unclassified failure (ended by
`stop()`, or by a fatal crypto failure whose message travels in the
preceding `CryptoError`) delivers exactly one `Exit`, with no message. -/
theorem c1_exit_always_last (nf : Bool → Nat → Nat → List Nat) (c : Client)
    (exts : List IterExternal) :
    ((∃ body, exitFree body = true ∧
        (loop_run nf c exts).2 = body ++ [Event.exit none]) ∨
     (∃ body m, exitFree body = true ∧
        (loop_run nf c exts).2 =
          body ++ [Event.exit (some m), Event.exit none])) ∧
    (loop_run nf c exts).2.getLast? = some (Event.exit none) ∧
    ((∀ ext ∈ exts, isOtherExc ext = false) →
      ∃ body, exitFree body = true ∧
        (loop_run nf c exts).2 = body ++ [Event.exit none]) := by
  have hs := loop_run_exit_shape nf exts c
  refine ⟨hs.1, ?_, hs.2⟩
  rcases hs.1 with ⟨body, _, he⟩ | ⟨body, m, _, he⟩
  · rw [he, List.getLast?_concat]
  · rw [he, show body ++ [Event.exit (some m), Event.exit none] =
      (body ++ [Event.exit (some m)]) ++ [Event.exit none] by
        rw [List.append_assoc]; rfl,
      List.getLast?_concat]

/-- Witness for `c1_exit_always_last`: the clean zero-iteration run (started
then immediately stopped) emits exactly `[Exit]` with no message. -/
theorem c1_exit_always_last_witness :
    (loop_run nf0 sample_client []).2.getLast? = some (Event.exit none) ∧
    ∃ body, exitFree body = true ∧
      (loop_run nf0 sample_client []).2 = body ++ [Event.exit none] :=
  ⟨(c1_exit_always_last nf0 sample_client []).2.1,
   (c1_exit_always_last nf0 sample_client []).2.2 (by simp)⟩
